import Mathlib

/-!
Shallow embedding of `src/custom_lib.py` (remote-sensing helper routines):
the two `get_days_in_month` helpers, the date bookkeeping of the
availability reporters, the monthly/seasonal aggregation of the optical
reporter, and the analysis-period selector, together with theorems about
them.
-/

namespace CustomLib

/-- First definition of `get_days_in_month` (src/custom_lib.py lines 6-15):
checks the 31-day months first, then the 30-day months, and treats every
remaining month number as February. -/
def get_days_in_month_v1 (year month : Nat) : Nat :=
  if month ∈ [1, 3, 5, 7, 8, 10, 12] then 31
  else if month ∈ [4, 6, 9, 11] then 30
  else
    if year % 4 = 0 ∧ (year % 100 ≠ 0 ∨ year % 400 = 0) then 29
    else 28

/-- Second definition of `get_days_in_month` (src/custom_lib.py lines
129-139), which shadows the first one: checks February first, then the
30-day months, and treats every remaining month number as a 31-day month. -/
def get_days_in_month (year month : Nat) : Nat :=
  if month = 2 then
    if year % 4 = 0 ∧ (year % 100 ≠ 0 ∨ year % 400 = 0) then 29
    else 28
  else if month ∈ [4, 6, 9, 11] then 30
  else 31

/-- A radar yearly-statistics record as built by
`check_sar_data_availability` (src/custom_lib.py lines 113-118):
year, image count, distinct polarizations, distinct orbit directions. -/
structure SarYearRecord where
  year : Nat
  count : Nat
  polarizations : List String
  orbits : List String
deriving DecidableEq, Repr

/-- An optical yearly-statistics record as built by
`check_optical_data_availability` (src/custom_lib.py lines 356-361). -/
structure OpticalYearRecord where
  year : Nat
  dry_season_count : Nat
  wet_season_count : Nat
  count : Nat
deriving DecidableEq, Repr

/-- Stable insertion of an element into a list: the element is placed
before the first list element it compares `le` to.  Used to model Python's
stable `sorted`. -/
def insertLe (le : α → α → Bool) (x : α) : List α → List α
  | [] => [x]
  | y :: ys => if le x y then x :: y :: ys else y :: insertLe le x ys

/-- Model of Python's built-in `sorted(list, key=...)`: a stable sort with
respect to the total preorder `le`.  Stable sorting by a total preorder
has a unique result, so this structurally recursive insertion sort has
exactly the semantics of Python's `sorted`. -/
def pySorted (le : α → α → Bool) : List α → List α
  | [] => []
  | a :: rest => insertLe le a (pySorted le rest)

/-- The good-year selection of `setting_up_analysis_periods`
(src/custom_lib.py lines 374-379): filter to years with count >= 50;
if fewer than 2 such years, fall back to the 2 highest-count years
(stable sort descending by count, take 2). -/
def good_years_pre (sar_yearly_stats : List SarYearRecord) :
    List SarYearRecord :=
  let good_years :=
    sar_yearly_stats.filter (fun year => decide (50 ≤ year.count))
  if good_years.length < 2 then
    (pySorted (fun a b => decide (b.count ≤ a.count)) sar_yearly_stats).take 2
  else good_years

/-- The good-year list after the final ascending sort by year
(src/custom_lib.py line 382). -/
def good_years_sorted (sar_yearly_stats : List SarYearRecord) :
    List SarYearRecord :=
  pySorted (fun a b => decide (a.year ≤ b.year)) (good_years_pre sar_yearly_stats)

/-- Result of `setting_up_analysis_periods`: either the Python `None`
returned on an empty input, or a `(baseline, intermediate, current)`
triple where the intermediate component may itself be `None`. -/
inductive SelResult where
  | noData : SelResult
  | triple (baseline_year : SarYearRecord)
      (intermediate_year : Option SarYearRecord)
      (current_year : SarYearRecord) : SelResult
deriving DecidableEq, Repr

/-- `setting_up_analysis_periods` (src/custom_lib.py lines 365-401).
Returns `some SelResult.noData` for the early `return None` on empty
input, `some (SelResult.triple ...)` for the normal return, and `none`
if any of the list indexings `good_years[0]`, `good_years[-1]`,
`good_years[-2]` would raise an IndexError. -/
def setting_up_analysis_periods (sar_yearly_stats : List SarYearRecord)
    (optical_yearly_stats : List OpticalYearRecord) :
    Option SelResult :=
  let _ := optical_yearly_stats
  if sar_yearly_stats.isEmpty then some SelResult.noData
  else
    let good_years := good_years_sorted sar_yearly_stats
    let intermediate_result : Option (Option SarYearRecord) :=
      if 1 < good_years.length then
        (good_years[good_years.length - 2]?).map some
      else some none
    match good_years.head?, good_years.getLast?, intermediate_result with
    | some baseline_year, some current_year, some intermediate_year =>
        some (SelResult.triple baseline_year intermediate_year current_year)
    | _, _, _ => none

/-- A calendar date (year, month, day), as handled through Python's
`datetime` values and `YYYY-MM-DD` strings in the source. -/
structure Date where
  year : Nat
  month : Nat
  day : Nat
deriving DecidableEq, Repr

/-- Strict chronological (lexicographic) order on dates. -/
def dateLt (a b : Date) : Bool :=
  decide (a.year < b.year) ||
    (decide (a.year = b.year) &&
      (decide (a.month < b.month) ||
        (decide (a.month = b.month) && decide (a.day < b.day))))

/-- Chronological order on dates, allowing equality. -/
def dateLe (a b : Date) : Bool :=
  dateLt a b || decide (a = b)

/-- Python's `date + timedelta(days=1)` on a calendar date: roll to the
next day, next month, or next year, using the (shadowing)
`get_days_in_month` day counts, which agree with the Gregorian calendar
on months 1..12. -/
def addOneDay (d : Date) : Date :=
  if d.day < get_days_in_month d.year d.month then ⟨d.year, d.month, d.day + 1⟩
  else if d.month < 12 then ⟨d.year, d.month + 1, 1⟩
  else ⟨d.year + 1, 1, 1⟩

/-- Start of the filter window for a non-boundary (full) month in
`check_optical_data_availability` (src/custom_lib.py line 210): the first
day of the month. -/
def month_filter_start (year month : Nat) : Date := ⟨year, month, 1⟩

/-- Compensated end of the filter window for a non-boundary (full) month
in `check_optical_data_availability` (src/custom_lib.py lines 211,
224-225): the last calendar day of the month, plus one day, as passed to
the end-exclusive date filter. -/
def month_filter_end (year month : Nat) : Date :=
  addOneDay ⟨year, month, get_days_in_month year month⟩

/-- Modelled from the spec: "the first day of the next calendar month",
the comparison target of the spec's full-month window property. -/
def first_of_next_month (year month : Nat) : Date :=
  if month = 12 then ⟨year + 1, 1, 1⟩ else ⟨year, month + 1, 1⟩

/-- A radar image as seen by the per-year filter of
`check_sar_data_availability`: its acquisition date and its
`instrumentMode` property. -/
structure SarImage where
  date : Date
  instrumentMode : String
deriving DecidableEq, Repr

/-- The per-year radar filter of `check_sar_data_availability`
(src/custom_lib.py lines 96-99): keep the images lying between
`year-01-01` and `year-12-31` under the external service's date filter —
modelled from the spec: the service's date filter is start-inclusive and
end-exclusive (spec §3 DateRange) — whose instrument mode equals "IW". -/
def sar_year_images (year : Nat) (ic : List SarImage) : List SarImage :=
  ic.filter (fun img =>
    dateLe ⟨year, 1, 1⟩ img.date && dateLt img.date ⟨year, 12, 31⟩ &&
      (img.instrumentMode == "IW"))

/-- The per-year radar image count of `check_sar_data_availability`
(src/custom_lib.py line 103). -/
def sar_year_count (year : Nat) (ic : List SarImage) : Nat :=
  (sar_year_images year ic).length

/-- Whether the month loop of `check_optical_data_availability` skips
this month (src/custom_lib.py lines 191-195): months before the start
month in the start year, and months after the end month in the end year,
are completely outside the observed data range. -/
def month_skipped (start e : Date) (year month : Nat) : Bool :=
  (decide (year = start.year) && decide (month < start.month)) ||
    (decide (year = e.year) && decide (e.month < month))

/-- The count recorded for one queried month (src/custom_lib.py lines
213-241): the catalog query's count on success, and zero when the query
raises.  The query itself is external, so it is a parameter. -/
def month_count_of_query (query : Nat → Nat → Except String Nat)
    (year month : Nat) : Nat :=
  match query year month with
  | Except.ok n => n
  | Except.error _ => 0

/-- The year range of the optical report (src/custom_lib.py line 177):
all integer years from `start.year` to `end.year` inclusive. -/
def all_years (start e : Date) : List Nat :=
  List.range' start.year (e.year - start.year + 1)

/-- The month-collection loop of `check_optical_data_availability`
(src/custom_lib.py lines 186-241), parametrized by the per-month catalog
query: for every year in range and every month 1..12 that is not
skipped, record the month's count (zero if the query failed), keyed by
year and then month, mirroring the `yearly_images` nested dictionary. -/
def collect_monthly_images (start e : Date)
    (query : Nat → Nat → Except String Nat) :
    List (Nat × List (Nat × Nat)) :=
  (all_years start e).map (fun year =>
    (year, (List.range' 1 12).filterMap (fun month =>
      if month_skipped start e year month then none
      else some (month, month_count_of_query query year month))))

/-- Nested dictionary access `yearly_images[year][month]`. -/
def monthly_lookup (t : List (Nat × List (Nat × Nat))) (year month : Nat) :
    Option Nat :=
  (t.lookup year).bind (fun months => months.lookup month)

/-- The `if month in yearly_images[year]` guarded read used by the season
and total sums: the stored count when present, otherwise zero. -/
def month_count_or_zero (t : List (Nat × List (Nat × Nat)))
    (year month : Nat) : Nat :=
  match monthly_lookup t year month with
  | some n => n
  | none => 0

/-- The dry-season sum of `check_optical_data_availability`
(src/custom_lib.py lines 244-257): months 5..10 of the year, absent
months contributing zero. -/
def dry_season_count (t : List (Nat × List (Nat × Nat))) (year : Nat) :
    Nat :=
  ([5, 6, 7, 8, 9, 10].map (fun month => month_count_or_zero t year month)).sum

/-- The wet-season sum of `check_optical_data_availability`
(src/custom_lib.py lines 261-282): months 11 and 12 of the year, plus
months 1..4 of the next year when the next year is a key of the
collected table. -/
def wet_season_count (t : List (Nat × List (Nat × Nat))) (year : Nat) :
    Nat :=
  ([11, 12].map (fun month => month_count_or_zero t year month)).sum +
    (if (t.lookup (year + 1)).isSome then
      ([1, 2, 3, 4].map (fun month => month_count_or_zero t (year + 1) month)).sum
    else 0)

/-- Modelled from the spec: the per-month count an observer of the report
expects — the catalog query's count (zero on failure) for months inside
the observed range (year between the start and end years, month 1..12,
not before the start month in the start year nor after the end month in
the end year), and zero for months outside it. -/
def observed_month_count (start e : Date)
    (query : Nat → Nat → Except String Nat) (year month : Nat) : Nat :=
  if start.year ≤ year ∧ year ≤ e.year ∧ 1 ≤ month ∧ month ≤ 12 ∧
      month_skipped start e year month = false then
    month_count_of_query query year month
  else 0

end CustomLib

namespace CustomLib

theorem insertLe_perm (le : α → α → Bool) (x : α) (l : List α) :
    (insertLe le x l).Perm (x :: l) := by
  induction l with
  | nil => simp [insertLe]
  | cons y ys ih =>
    simp only [insertLe]
    by_cases h : le x y = true
    · simp [h]
    · simp only [h]
      exact ((ih.cons y).trans (List.Perm.swap x y ys)).symm.symm

theorem pySorted_perm (le : α → α → Bool) (l : List α) :
    (pySorted le l).Perm l := by
  induction l with
  | nil => simp [pySorted]
  | cons a rest ih =>
    exact (insertLe_perm le a (pySorted le rest)).trans (ih.cons a)

theorem mem_pySorted (le : α → α → Bool) (l : List α) (x : α) :
    x ∈ pySorted le l ↔ x ∈ l :=
  (pySorted_perm le l).mem_iff

theorem pySorted_eq_nil_iff (le : α → α → Bool) (l : List α) :
    pySorted le l = [] ↔ l = [] := by
  constructor
  · intro h
    have := pySorted_perm le l
    rw [h] at this
    exact this.symm.eq_nil
  · intro h
    subst h
    rfl

theorem pairwise_insertLe (le : α → α → Bool)
    (htot : ∀ a b, le a b = true ∨ le b a = true)
    (htrans : ∀ a b c, le a b = true → le b c = true → le a c = true)
    (x : α) (l : List α)
    (hl : l.Pairwise (fun a b => le a b = true)) :
    (insertLe le x l).Pairwise (fun a b => le a b = true) := by
  induction l with
  | nil => simp [insertLe]
  | cons y ys ih =>
    rcases List.pairwise_cons.mp hl with ⟨hy, hys⟩
    simp only [insertLe]
    by_cases h : le x y = true
    · simp only [h, if_true]
      refine List.pairwise_cons.mpr ⟨?_, hl⟩
      intro b hb
      rcases List.mem_cons.mp hb with rfl | hb
      · exact h
      · exact htrans x y b h (hy _ hb)
    · simp only [h, if_false]
      have hyx : le y x = true := (htot x y).resolve_left h
      refine List.pairwise_cons.mpr ⟨?_, ih hys⟩
      intro b hb
      rcases List.mem_cons.mp ((insertLe_perm le x ys).mem_iff.mp hb) with rfl | hb
      · exact hyx
      · exact hy _ hb

theorem pairwise_pySorted (le : α → α → Bool)
    (htot : ∀ a b, le a b = true ∨ le b a = true)
    (htrans : ∀ a b c, le a b = true → le b c = true → le a c = true)
    (l : List α) :
    (pySorted le l).Pairwise (fun a b => le a b = true) := by
  induction l with
  | nil => simp [pySorted]
  | cons a rest ih =>
    exact pairwise_insertLe le htot htrans a (pySorted le rest) ih

end CustomLib

namespace CustomLib

theorem good_years_pre_ne_nil (sar : List SarYearRecord) (h : sar ≠ []) :
    good_years_pre sar ≠ [] := by
  unfold good_years_pre
  by_cases hlen :
      (sar.filter (fun year => decide (50 ≤ year.count))).length < 2
  · simp only [hlen, if_true]
    have hp : pySorted (fun a b => decide (b.count ≤ a.count)) sar ≠ [] :=
      fun hc => h ((pySorted_eq_nil_iff _ _).mp hc)
    obtain ⟨a, t, hat⟩ := List.exists_cons_of_ne_nil hp
    rw [hat]
    simp
  · simp only [hlen, if_false]
    intro hc
    rw [hc] at hlen
    simp at hlen

theorem good_years_sorted_ne_nil (sar : List SarYearRecord) (h : sar ≠ []) :
    good_years_sorted sar ≠ [] := by
  unfold good_years_sorted
  exact fun hc =>
    good_years_pre_ne_nil sar h ((pySorted_eq_nil_iff _ _).mp hc)

theorem mem_of_mem_good_years_pre {sar : List SarYearRecord}
    {x : SarYearRecord} (hx : x ∈ good_years_pre sar) : x ∈ sar := by
  unfold good_years_pre at hx
  by_cases hlen :
      (sar.filter (fun year => decide (50 ≤ year.count))).length < 2
  · simp only [hlen, if_true] at hx
    exact (mem_pySorted _ _ _).mp (List.take_subset _ _ hx)
  · simp only [hlen, if_false] at hx
    exact (List.mem_filter.mp hx).1

theorem mem_of_mem_good_years_sorted {sar : List SarYearRecord}
    {x : SarYearRecord} (hx : x ∈ good_years_sorted sar) : x ∈ sar := by
  unfold good_years_sorted at hx
  exact mem_of_mem_good_years_pre ((mem_pySorted _ _ _).mp hx)

theorem setting_up_analysis_periods_spec (sar : List SarYearRecord)
    (opt : List OpticalYearRecord) (h : sar ≠ []) :
    ∃ hg : good_years_sorted sar ≠ [],
      setting_up_analysis_periods sar opt =
        some (SelResult.triple ((good_years_sorted sar).head hg)
          (if hl : 1 < (good_years_sorted sar).length then
            some ((good_years_sorted sar).get
              ⟨(good_years_sorted sar).length - 2, by omega⟩)
           else none)
          ((good_years_sorted sar).getLast hg)) := by
  have hg : good_years_sorted sar ≠ [] := good_years_sorted_ne_nil sar h
  refine ⟨hg, ?_⟩
  unfold setting_up_analysis_periods
  rw [if_neg (fun hc => h (List.isEmpty_iff.mp hc))]
  by_cases hl : 1 < (good_years_sorted sar).length
  · have hidx : (good_years_sorted sar).length - 2 <
        (good_years_sorted sar).length := by omega
    simp only [hl, if_true, List.getElem?_eq_getElem hidx, Option.map_some,
      List.head?_eq_head hg, List.getLast?_eq_getLast _ hg, dif_pos hl]
    rfl
  · simp only [hl, if_false, List.head?_eq_head hg,
      List.getLast?_eq_getLast _ hg, dif_neg hl]
    rfl

theorem head_rel_of_pairwise {α : Type _} {R : α → α → Prop}
    (hrefl : ∀ a, R a a) {l : List α} (hp : l.Pairwise R) (h : l ≠ []) :
    ∀ x ∈ l, R (l.head h) x := by
  cases l with
  | nil => exact absurd rfl h
  | cons a t =>
    intro x hx
    rcases List.mem_cons.mp hx with rfl | hx
    · exact hrefl x
    · exact (List.pairwise_cons.mp hp).1 x hx

theorem rel_getLast_of_pairwise {α : Type _} {R : α → α → Prop}
    (hrefl : ∀ a, R a a) :
    ∀ {l : List α}, l.Pairwise R → (h : l ≠ []) →
      ∀ x ∈ l, R x (l.getLast h) := by
  intro l
  induction l with
  | nil => exact fun _ h => absurd rfl h
  | cons a t ih =>
    intro hp h x hx
    by_cases ht : t = []
    · subst ht
      rcases List.mem_cons.mp hx with rfl | hx
      · exact hrefl x
      · cases hx
    · rw [List.getLast_cons ht]
      rcases List.mem_cons.mp hx with rfl | hx
      · exact (List.pairwise_cons.mp hp).1 _ (List.getLast_mem ht)
      · exact ih (List.pairwise_cons.mp hp).2 ht x hx

theorem good_years_sorted_pairwise (sar : List SarYearRecord) :
    (good_years_sorted sar).Pairwise (fun a b => a.year ≤ b.year) := by
  unfold good_years_sorted
  have hpw := pairwise_pySorted
    (fun a b : SarYearRecord => decide (a.year ≤ b.year))
    (fun a b => by
      rcases Nat.le_total a.year b.year with h | h
      · exact Or.inl (decide_eq_true h)
      · exact Or.inr (decide_eq_true h))
    (fun a b c hab hbc =>
      decide_eq_true
        (Nat.le_trans (of_decide_eq_true hab) (of_decide_eq_true hbc)))
    (good_years_pre sar)
  exact hpw.imp (fun h => of_decide_eq_true h)

end CustomLib

namespace CustomLib

/-- C5: for every year and month, `get_days_in_month` returns 31 on months
{1,3,5,7,8,10,12}, 30 on months {4,6,9,11}, and on month 2 returns 29 iff
the year is divisible by 4 and (not divisible by 100 or divisible by 400),
else 28. -/
theorem C5_get_days_in_month_table (year month : Nat) :
    (month ∈ [1, 3, 5, 7, 8, 10, 12] → get_days_in_month year month = 31) ∧
    (month ∈ [4, 6, 9, 11] → get_days_in_month year month = 30) ∧
    (get_days_in_month year 2 = 29 ↔
      year % 4 = 0 ∧ (year % 100 ≠ 0 ∨ year % 400 = 0)) ∧
    (¬ (year % 4 = 0 ∧ (year % 100 ≠ 0 ∨ year % 400 = 0)) →
      get_days_in_month year 2 = 28) := by
  refine ⟨?_, ?_, ?_, ?_⟩
  · intro hm
    fin_cases hm <;> rfl
  · intro hm
    fin_cases hm <;> rfl
  · by_cases hc : year % 4 = 0 ∧ (year % 100 ≠ 0 ∨ year % 400 = 0)
    · simp [get_days_in_month, hc]
    · simp [get_days_in_month, hc]
  · intro hc
    simp [get_days_in_month, hc]

/-- Witness for C5 at concrete inputs: July 2023, April 2023, February of
leap year 2024, February of non-leap year 1900. -/
theorem C5_get_days_in_month_table_witness :
    get_days_in_month 2023 7 = 31 ∧ get_days_in_month 2023 4 = 30 ∧
    get_days_in_month 2024 2 = 29 ∧ get_days_in_month 1900 2 = 28 :=
  ⟨(C5_get_days_in_month_table 2023 7).1 (by decide),
   (C5_get_days_in_month_table 2023 4).2.1 (by decide),
   (C5_get_days_in_month_table 2024 2).2.2.1.mpr (by decide),
   (C5_get_days_in_month_table 1900 2).2.2.2 (by decide)⟩

/-- C9 counterexample: at month 13 the first definition of
`get_days_in_month` falls into its February branch and returns 28, while
the second (shadowing) definition falls into its 31-day branch and
returns 31, so the two definitions do not agree on every input. -/
theorem C9_counterexample_month13 :
    get_days_in_month_v1 2018 13 = 28 ∧ get_days_in_month 2018 13 = 31 ∧
    get_days_in_month_v1 2018 13 ≠ get_days_in_month 2018 13 := by decide

/-- C9 amended: the two definitions of `get_days_in_month` agree on every
(year, month) with month between 1 and 12, i.e. on every valid month, so
the shadowing does not change behaviour for valid inputs. -/
theorem C9_amended_agree_on_valid_months (year month : Nat)
    (h1 : 1 ≤ month) (h2 : month ≤ 12) :
    get_days_in_month_v1 year month = get_days_in_month year month := by
  interval_cases month <;> rfl

/-- Witness for the amended C9 at February 2100. -/
theorem C9_amended_agree_on_valid_months_witness :
    1 ≤ 2 ∧ 2 ≤ 12 ∧
      get_days_in_month_v1 2100 2 = get_days_in_month 2100 2 :=
  ⟨by decide, by decide,
    C9_amended_agree_on_valid_months 2100 2 (by decide) (by decide)⟩

/-- C7: on an empty radar statistics list the period selector returns the
Python `None` result without raising. -/
theorem C7_empty_input_returns_noData :
    setting_up_analysis_periods [] [] = some SelResult.noData := rfl

/-- C1 counterexample: on the records [{2018,30},{2019,60},{2020,70},
{2021,10}] the selector does not return (baseline 2019, intermediate
none, current 2020): since there are two good years, `len(good_years) > 1`
holds and the intermediate slot gets `good_years[-2]`, the 2019 record. -/
theorem C1_counterexample_intermediate_not_none :
    setting_up_analysis_periods
      [⟨2018, 30, [], []⟩, ⟨2019, 60, [], []⟩, ⟨2020, 70, [], []⟩,
        ⟨2021, 10, [], []⟩] [] ≠
      some (SelResult.triple ⟨2019, 60, [], []⟩ none ⟨2020, 70, [], []⟩) := by
  decide

/-- C1 amended: on the records [{2018,30},{2019,60},{2020,70},{2021,10}]
the selector returns baseline = the 2019 record, current = the 2020
record, and intermediate = the 2019 record (the second-to-last of the two
good years), not the designated none value. -/
theorem C1_amended_selector_example :
    setting_up_analysis_periods
      [⟨2018, 30, [], []⟩, ⟨2019, 60, [], []⟩, ⟨2020, 70, [], []⟩,
        ⟨2021, 10, [], []⟩] [] =
      some (SelResult.triple ⟨2019, 60, [], []⟩ (some ⟨2019, 60, [], []⟩)
        ⟨2020, 70, [], []⟩) := by decide

/-- C2: for every non-empty radar statistics list, the selector returns a
triple whose baseline is the earliest record of the sorted good-year list,
whose current is the latest, and whose intermediate is the second-to-last
entry of that list when it has at least two elements and none otherwise. -/
theorem C2_selector_baseline_current_intermediate
    (sar : List SarYearRecord) (opt : List OpticalYearRecord)
    (h : sar ≠ []) :
    ∃ b i c, setting_up_analysis_periods sar opt =
        some (SelResult.triple b i c) ∧
      b ∈ good_years_sorted sar ∧ c ∈ good_years_sorted sar ∧
      (∀ r ∈ good_years_sorted sar, b.year ≤ r.year) ∧
      (∀ r ∈ good_years_sorted sar, r.year ≤ c.year) ∧
      (1 < (good_years_sorted sar).length →
        i = (good_years_sorted sar)[(good_years_sorted sar).length - 2]?) ∧
      (¬ 1 < (good_years_sorted sar).length → i = none) := by
  obtain ⟨hg, heq⟩ := setting_up_analysis_periods_spec sar opt h
  have hpw := good_years_sorted_pairwise sar
  refine ⟨_, _, _, heq, List.head_mem hg, List.getLast_mem hg,
    head_rel_of_pairwise (R := fun a b => a.year ≤ b.year)
      (fun a => Nat.le_refl _) hpw hg,
    rel_getLast_of_pairwise (R := fun a b => a.year ≤ b.year)
      (fun a => Nat.le_refl _) hpw hg, ?_, ?_⟩
  · intro hl
    rw [dif_pos hl, List.getElem?_eq_getElem (show
      (good_years_sorted sar).length - 2 < (good_years_sorted sar).length
      by omega)]
    rfl
  · intro hl
    rw [dif_neg hl]

/-- Witness for C2 on the two-record list [{2019,60},{2020,70}]. -/
theorem C2_selector_baseline_current_intermediate_witness :
    (([⟨2019, 60, [], []⟩, ⟨2020, 70, [], []⟩] : List SarYearRecord) ≠ []) ∧
    (∃ b i c, setting_up_analysis_periods
        [⟨2019, 60, [], []⟩, ⟨2020, 70, [], []⟩] [] =
          some (SelResult.triple b i c) ∧
      b ∈ good_years_sorted [⟨2019, 60, [], []⟩, ⟨2020, 70, [], []⟩] ∧
      c ∈ good_years_sorted [⟨2019, 60, [], []⟩, ⟨2020, 70, [], []⟩] ∧
      (∀ r ∈ good_years_sorted [⟨2019, 60, [], []⟩, ⟨2020, 70, [], []⟩],
        b.year ≤ r.year) ∧
      (∀ r ∈ good_years_sorted [⟨2019, 60, [], []⟩, ⟨2020, 70, [], []⟩],
        r.year ≤ c.year) ∧
      (1 < (good_years_sorted
          [⟨2019, 60, [], []⟩, ⟨2020, 70, [], []⟩]).length →
        i = (good_years_sorted [⟨2019, 60, [], []⟩, ⟨2020, 70, [], []⟩])[
          (good_years_sorted
            [⟨2019, 60, [], []⟩, ⟨2020, 70, [], []⟩]).length - 2]?) ∧
      (¬ 1 < (good_years_sorted
          [⟨2019, 60, [], []⟩, ⟨2020, 70, [], []⟩]).length → i = none)) :=
  ⟨by decide,
    C2_selector_baseline_current_intermediate
      [⟨2019, 60, [], []⟩, ⟨2020, 70, [], []⟩] [] (by decide)⟩

/-- C10: for every non-empty radar statistics list the selector returns a
triple without any out-of-range indexing (the result is neither the crash
value nor the noData value), and its baseline and current components are
records of the input list. -/
theorem C10_selector_safe_on_nonempty (sar : List SarYearRecord)
    (opt : List OpticalYearRecord) (h : sar ≠ []) :
    ∃ b i c, setting_up_analysis_periods sar opt =
        some (SelResult.triple b i c) ∧ b ∈ sar ∧ c ∈ sar := by
  obtain ⟨hg, heq⟩ := setting_up_analysis_periods_spec sar opt h
  exact ⟨_, _, _, heq,
    mem_of_mem_good_years_sorted (List.head_mem hg),
    mem_of_mem_good_years_sorted (List.getLast_mem hg)⟩

/-- Witness for C10 on the single-record list [{2021,10}]. -/
theorem C10_selector_safe_on_nonempty_witness :
    (([⟨2021, 10, [], []⟩] : List SarYearRecord) ≠ []) ∧
    (∃ b i c, setting_up_analysis_periods [⟨2021, 10, [], []⟩] [] =
        some (SelResult.triple b i c) ∧
      b ∈ [⟨2021, 10, [], []⟩] ∧ c ∈ [(⟨2021, 10, [], []⟩ : SarYearRecord)]) :=
  ⟨by decide,
    C10_selector_safe_on_nonempty [⟨2021, 10, [], []⟩] [] (by decide)⟩

end CustomLib

namespace CustomLib

theorem lookup_map_keys {β : Type _} (ys : List Nat) (f : Nat → β) (y : Nat) :
    ((ys.map (fun a => (a, f a))).lookup y) =
      if y ∈ ys then some (f y) else none := by
  induction ys with
  | nil => simp
  | cons a t ih =>
    simp only [List.map_cons, List.lookup_cons]
    by_cases hy : y = a
    · subst hy
      simp
    · simp [beq_eq_false_iff_ne.mpr hy, ih, List.mem_cons, hy]

theorem lookup_filterMap_months (ms : List Nat) (p : Nat → Bool)
    (v : Nat → Nat) (m : Nat) :
    ((ms.filterMap (fun x =>
        if p x then none else some (x, v x))).lookup m) =
      if m ∈ ms ∧ p m = false then some (v m) else none := by
  induction ms with
  | nil => simp
  | cons a t ih =>
    by_cases hp : p a = true
    · by_cases hm : m = a
      · subst hm
        simp [List.filterMap_cons, hp, ih]
      · simp [List.filterMap_cons, hp, ih, List.mem_cons, hm]
    · have hp2 : p a = false := by
        cases hpa : p a
        · rfl
        · exact absurd hpa hp
      by_cases hm : m = a
      · subst hm
        simp [List.filterMap_cons, hp2, List.lookup_cons]
      · simp [List.filterMap_cons, hp2, List.lookup_cons,
          beq_eq_false_iff_ne.mpr hm, ih, List.mem_cons, hm]

theorem monthly_lookup_collect (start e : Date)
    (query : Nat → Nat → Except String Nat) (hse : start.year ≤ e.year)
    (year month : Nat) :
    monthly_lookup (collect_monthly_images start e query) year month =
      if start.year ≤ year ∧ year ≤ e.year ∧ 1 ≤ month ∧ month ≤ 12 ∧
          month_skipped start e year month = false then
        some (month_count_of_query query year month)
      else none := by
  unfold monthly_lookup collect_monthly_images
  rw [lookup_map_keys]
  by_cases hy : year ∈ all_years start e
  · rw [if_pos hy]
    have hy2 : start.year ≤ year ∧ year ≤ e.year := by
      have := List.mem_range'_1.mp hy
      omega
    simp only [Option.some_bind]
    rw [lookup_filterMap_months]
    by_cases hm : 1 ≤ month ∧ month ≤ 12
    · by_cases hs : month_skipped start e year month = false
      · rw [if_pos ⟨List.mem_range'_1.mpr (by omega), hs⟩,
          if_pos ⟨hy2.1, hy2.2, hm.1, hm.2, hs⟩]
      · rw [if_neg (fun hc => hs hc.2), if_neg (fun hc => hs hc.2.2.2.2)]
    · rw [if_neg (fun hc => hm ⟨by
          have := List.mem_range'_1.mp hc.1
          omega,
        by
          have := List.mem_range'_1.mp hc.1
          omega⟩),
        if_neg (fun hc => hm ⟨hc.2.2.1, hc.2.2.2.1⟩)]
  · rw [if_neg hy, if_neg (fun hc => hy (List.mem_range'_1.mpr (by omega)))]
    rfl

theorem month_count_or_zero_collect (start e : Date)
    (query : Nat → Nat → Except String Nat) (hse : start.year ≤ e.year)
    (year month : Nat) :
    month_count_or_zero (collect_monthly_images start e query) year month =
      observed_month_count start e query year month := by
  unfold month_count_or_zero observed_month_count
  rw [monthly_lookup_collect start e query hse]
  by_cases hc : start.year ≤ year ∧ year ≤ e.year ∧ 1 ≤ month ∧ month ≤ 12 ∧
      month_skipped start e year month = false
  · rw [if_pos hc, if_pos hc]
  · rw [if_neg hc, if_neg hc]

theorem collect_isSome_iff (start e : Date)
    (query : Nat → Nat → Except String Nat) (hse : start.year ≤ e.year)
    (year : Nat) :
    ((collect_monthly_images start e query).lookup year).isSome = true ↔
      start.year ≤ year ∧ year ≤ e.year := by
  unfold collect_monthly_images
  rw [lookup_map_keys]
  by_cases hy : year ∈ all_years start e
  · have := List.mem_range'_1.mp hy
    rw [if_pos hy]
    simp only [Option.isSome_some, true_iff]
    omega
  · rw [if_neg hy]
    simp only [Option.isSome_none, Bool.false_eq_true, false_iff]
    intro hc
    exact hy (List.mem_range'_1.mpr (by omega))

/-- C3: the per-year radar filter does not compensate the end-exclusive
date filter: an IW image acquired on December 31 lies inside the calendar
year but is excluded, because `year-12-31` is passed as the end of the
end-exclusive filter without adding one day, so its year count is 0
where the claim expects 1. -/
theorem C3_dec31_iw_image_not_counted :
    (⟨⟨2020, 12, 31⟩, "IW"⟩ : SarImage).date.year = 2020 ∧
    (⟨⟨2020, 12, 31⟩, "IW"⟩ : SarImage).instrumentMode = "IW" ∧
    sar_year_count 2020 [⟨⟨2020, 12, 31⟩, "IW"⟩] = 0 := by decide

/-- C4: for every valid month, the compensated end date of a full-month
filter window equals the first day of the next calendar month, and every
day of the month lies inside the start-inclusive, end-exclusive window. -/
theorem C4_full_month_window (year month : Nat)
    (h1 : 1 ≤ month) (h2 : month ≤ 12) :
    month_filter_end year month = first_of_next_month year month ∧
    ∀ day, 1 ≤ day → day ≤ get_days_in_month year month →
      dateLe (month_filter_start year month) ⟨year, month, day⟩ = true ∧
      dateLt ⟨year, month, day⟩ (month_filter_end year month) = true := by
  have heq : month_filter_end year month = first_of_next_month year month := by
    simp only [month_filter_end, addOneDay, lt_self_iff_false, if_false]
    by_cases hm : month < 12
    · rw [if_pos hm, first_of_next_month, if_neg (by omega)]
    · rw [if_neg hm, first_of_next_month, if_pos (by omega)]
  refine ⟨heq, ?_⟩
  intro day hd1 hd2
  constructor
  · simp [dateLe, dateLt, month_filter_start, Date.mk.injEq]
    omega
  · rw [heq]
    by_cases hm : month = 12
    · subst hm
      simp [dateLt, first_of_next_month]
    · simp [dateLt, first_of_next_month, hm]

/-- Witness for C4 at February 2024 (a leap month). -/
theorem C4_full_month_window_witness :
    1 ≤ 2 ∧ 2 ≤ 12 ∧
    (month_filter_end 2024 2 = first_of_next_month 2024 2 ∧
     ∀ day, 1 ≤ day → day ≤ get_days_in_month 2024 2 →
       dateLe (month_filter_start 2024 2) ⟨2024, 2, day⟩ = true ∧
       dateLt ⟨2024, 2, day⟩ (month_filter_end 2024 2) = true) :=
  ⟨by decide, by decide, C4_full_month_window 2024 2 (by decide) (by decide)⟩

/-- C6: for every year in the observed range, the dry-season total equals
the sum of the observed monthly counts of months 5..10 of that year, and
the wet-season total equals the sum of the observed monthly counts of
months 11 and 12 of that year, plus the sum over months 1..4 of the next
year exactly when the next year is still in the observed range; months
absent from the observed boundary contribute zero. -/
theorem C6_season_totals (start e : Date)
    (query : Nat → Nat → Except String Nat) (year : Nat)
    (hse : start.year ≤ e.year)
    (hy1 : start.year ≤ year) (hy2 : year ≤ e.year) :
    dry_season_count (collect_monthly_images start e query) year =
      ([5, 6, 7, 8, 9, 10].map (fun month =>
        observed_month_count start e query year month)).sum ∧
    wet_season_count (collect_monthly_images start e query) year =
      ([11, 12].map (fun month =>
        observed_month_count start e query year month)).sum +
      (if year + 1 ≤ e.year then
        ([1, 2, 3, 4].map (fun month =>
          observed_month_count start e query (year + 1) month)).sum
       else 0) := by
  constructor
  · unfold dry_season_count
    simp only [month_count_or_zero_collect start e query hse]
  · unfold wet_season_count
    simp only [month_count_or_zero_collect start e query hse]
    by_cases hny : year + 1 ≤ e.year
    · rw [if_pos ((collect_isSome_iff start e query hse (year + 1)).mpr
        ⟨by omega, hny⟩), if_pos hny]
    · rw [if_neg (fun hc =>
        hny ((collect_isSome_iff start e query hse (year + 1)).mp hc).2),
        if_neg hny]

/-- Witness for C6: observed range 2019-03-05 to 2020-08-20, a query
failing in June, at year 2019. -/
theorem C6_season_totals_witness :
    ((⟨2019, 3, 5⟩ : Date).year ≤ (⟨2020, 8, 20⟩ : Date).year ∧
     (⟨2019, 3, 5⟩ : Date).year ≤ 2019 ∧ 2019 ≤ (⟨2020, 8, 20⟩ : Date).year) ∧
    (dry_season_count (collect_monthly_images ⟨2019, 3, 5⟩ ⟨2020, 8, 20⟩
        (fun y m => if m = 6 then Except.error "down"
          else Except.ok (y % 100 + m))) 2019 =
      ([5, 6, 7, 8, 9, 10].map (fun month =>
        observed_month_count ⟨2019, 3, 5⟩ ⟨2020, 8, 20⟩
          (fun y m => if m = 6 then Except.error "down"
            else Except.ok (y % 100 + m)) 2019 month)).sum ∧
     wet_season_count (collect_monthly_images ⟨2019, 3, 5⟩ ⟨2020, 8, 20⟩
        (fun y m => if m = 6 then Except.error "down"
          else Except.ok (y % 100 + m))) 2019 =
      ([11, 12].map (fun month =>
        observed_month_count ⟨2019, 3, 5⟩ ⟨2020, 8, 20⟩
          (fun y m => if m = 6 then Except.error "down"
            else Except.ok (y % 100 + m)) 2019 month)).sum +
      (if 2019 + 1 ≤ (⟨2020, 8, 20⟩ : Date).year then
        ([1, 2, 3, 4].map (fun month =>
          observed_month_count ⟨2019, 3, 5⟩ ⟨2020, 8, 20⟩
            (fun y m => if m = 6 then Except.error "down"
              else Except.ok (y % 100 + m)) (2019 + 1) month)).sum
       else 0)) :=
  ⟨⟨by decide, by decide, by decide⟩,
    C6_season_totals ⟨2019, 3, 5⟩ ⟨2020, 8, 20⟩
      (fun y m => if m = 6 then Except.error "down"
        else Except.ok (y % 100 + m)) 2019
      (by decide) (by decide) (by decide)⟩

/-- C8: every non-skipped month of every year in the observed range gets
an entry in the collected monthly table — equal to the query's count, and
in particular equal to zero whenever the query for that month fails — so
one month's failure neither aborts the loop nor removes the month's
entry. -/
theorem C8_month_query_failure_zero (start e : Date)
    (query : Nat → Nat → Except String Nat) (year month : Nat)
    (hse : start.year ≤ e.year)
    (hy1 : start.year ≤ year) (hy2 : year ≤ e.year)
    (hm1 : 1 ≤ month) (hm2 : month ≤ 12)
    (hskip : month_skipped start e year month = false) :
    monthly_lookup (collect_monthly_images start e query) year month =
      some (month_count_of_query query year month) ∧
    (∀ s, query year month = Except.error s →
      monthly_lookup (collect_monthly_images start e query) year month =
        some 0) := by
  have h := monthly_lookup_collect start e query hse year month
  rw [if_pos ⟨hy1, hy2, hm1, hm2, hskip⟩] at h
  refine ⟨h, fun s hs => ?_⟩
  rw [h]
  unfold month_count_of_query
  rw [hs]

/-- Witness for C8: a query that always fails, at July 2019 inside the
observed range 2019-03-05 to 2020-08-20. -/
theorem C8_month_query_failure_zero_witness :
    ((⟨2019, 3, 5⟩ : Date).year ≤ (⟨2020, 8, 20⟩ : Date).year ∧
     (⟨2019, 3, 5⟩ : Date).year ≤ 2019 ∧ 2019 ≤ (⟨2020, 8, 20⟩ : Date).year ∧
     1 ≤ 7 ∧ 7 ≤ 12 ∧
     month_skipped ⟨2019, 3, 5⟩ ⟨2020, 8, 20⟩ 2019 7 = false) ∧
    (monthly_lookup (collect_monthly_images ⟨2019, 3, 5⟩ ⟨2020, 8, 20⟩
        (fun _ _ => Except.error "offline")) 2019 7 =
      some (month_count_of_query (fun _ _ => Except.error "offline") 2019 7) ∧
     (∀ s, (fun _ _ => (Except.error "offline" : Except String Nat)) 2019 7 =
          Except.error s →
       monthly_lookup (collect_monthly_images ⟨2019, 3, 5⟩ ⟨2020, 8, 20⟩
          (fun _ _ => Except.error "offline")) 2019 7 = some 0)) :=
  ⟨⟨by decide, by decide, by decide, by decide, by decide, by decide⟩,
    C8_month_query_failure_zero ⟨2019, 3, 5⟩ ⟨2020, 8, 20⟩
      (fun _ _ => Except.error "offline") 2019 7
      (by decide) (by decide) (by decide) (by decide) (by decide) (by decide)⟩

end CustomLib
